import Mathlib

/-
Verification of the netbackup device-backup orchestration loop.

The development shallowly embeds main.py of the netbackup repository:

- A CSV row (after the discarded header line) is a Row with four string
  fields, mirroring row[0] .. row[3] of the source.
- The static vendor tables api_device_types, api_strings,
  netmiko_device_types and netmiko_device_commands are copied verbatim.
- The outside world (os.getenv, the netmiko session, the HTTP GET) is an
  Env of oracle functions.  A netmiko session that raises anywhere inside
  the try block of netmiko_read yields none; the except block of
  netmiko_read turns that into the Python value None, embedded as none.
- The HTTP GET has no surrounding try/except in the source, so a network
  failure (http_get = none) or a missing token (getenv = none, which makes
  the string concatenation raise TypeError) is an uncaught exception: the
  run ends in the RunResult.crashed constructor and no report is produced.
- The filesystem is a map from filename to content; save_file opens with
  mode w+, which truncates, so it is embedded as a pointwise overwrite.
  The file-write collaborator is modelled as reliable.
- Logging, report rendering and mail are external collaborators with no
  influence on the status list or the files and are not modelled.
-/

namespace Netbackup

/-- One CSV record: row[0] = name, row[1] = host, row[2] = device_type,
row[3] = credential reference. -/
structure Row where
  name : String
  host : String
  device_type : String
  cred_ref : String
deriving DecidableEq

/-- Source: api_device_types. -/
def api_device_types : List String :=
  ["fortinet"]

/-- Source: api_strings. -/
def api_strings : List (String × String) :=
  [("fortinet", "/api/v2/monitor/system/config/backup?scope=global&access_token=")]

/-- Source: netmiko_device_types. -/
def netmiko_device_types : List String :=
  ["mikrotik_routeros", "ubiquiti_edgeswitch", "cisco_s300"]

/-- Source: netmiko_device_commands. -/
def netmiko_device_commands : List (String × String) :=
  [("mikrotik_routeros", "export"),
   ("ubiquiti_edgeswitch", "show run"),
   ("cisco_s300", "show run")]

/-- The two netmiko read primitives the source can invoke:
send_command_timing (timed-drain, with its last_read argument) and
send_command (prompt-synchronized). -/
inductive NetmikoCall where
  | timing (command : String) (last_read : Nat)
  | prompt (command : String)
deriving DecidableEq

/-- The netmiko_device dictionary built in main.  Python string-or-None
values are embedded as Option String. -/
structure NetmikoDevice where
  host : String
  username : Option String
  password : Option String
  secret : Option String
  device_type : String
deriving DecidableEq

/-- Oracles for the outside world.  getenv mirrors os.getenv (none when the
variable is unset).  netmiko_session returns the captured command output of
a session, or none when the connection, authentication or command raises.
http_get returns the response body text, or none when the request raises a
network-level exception. -/
structure Env where
  getenv : String → Option String
  netmiko_session : NetmikoDevice → NetmikoCall → Option String
  http_get : String → Option String

/-- The header block netmiko_read prepends to device_data. -/
def netmiko_header (host : String) : String :=
  "####################################\n" ++
  "# Output for device " ++ host ++ "\n" ++
  "####################################\n\n"

/-- The read primitive netmiko_read selects for a device kind: the source
branches on device_type == mikrotik_routeros, using send_command_timing
with last_read=60 there and send_command everywhere else. -/
def netmiko_call (device_type : String) (command : String) : NetmikoCall :=
  if device_type = "mikrotik_routeros" then NetmikoCall.timing command 60
  else NetmikoCall.prompt command

/-- Embedding of netmiko_read.  The whole body sits in a try block whose
except clause logs and falls through, returning the Python value None,
embedded as none.  A missing key in the command table (KeyError) is also
caught by that clause. -/
def netmiko_read (env : Env) (dev : NetmikoDevice)
    (commands : List (String × String)) : Option String :=
  match commands.lookup dev.device_type with
  | none => none
  | some command =>
    match env.netmiko_session dev (netmiko_call dev.device_type command) with
    | none => none
    | some output => some (netmiko_header dev.host ++ output)

/-- The comm_type variable of the loop body: set to netmiko or api by two
mutually exclusive conditions, otherwise left as the empty string. -/
def comm_type (device_type : String) : String :=
  if device_type ∈ netmiko_device_types ∧ device_type ∉ api_device_types then
    "netmiko"
  else if device_type ∈ api_device_types ∧ device_type ∉ netmiko_device_types then
    "api"
  else ""

/-- Credential resolution for the netmiko branch: user and pw start as the
empty string and are replaced by os.getenv values only when the reference
is MAIN_USER. -/
def resolve_netmiko_cred (getenv : String → Option String) (ref : String) :
    Option String × Option String :=
  if ref = "MAIN_USER" then (getenv "MAIN_USER", getenv "MAIN_PASS")
  else (some "", some "")

/-- The netmiko_device dictionary of the source: secret is the same value
as password. -/
def build_netmiko_device (getenv : String → Option String) (row : Row) :
    NetmikoDevice :=
  let cred := resolve_netmiko_cred getenv row.cred_ref
  { host := row.host
    username := cred.1
    password := cred.2
    secret := cred.2
    device_type := row.device_type }

/-- The API URL concatenation.  A device kind missing from api_strings
raises KeyError and an unset token variable makes the concatenation with
None raise TypeError; neither is caught, so both are embedded as none,
which the loop turns into a crash of the run. -/
def api_url (getenv : String → Option String) (row : Row) : Option String :=
  match api_strings.lookup row.device_type, getenv row.cred_ref with
  | some path_query, some token =>
    some ("https://" ++ row.host ++ path_query ++ token)
  | _, _ => none

/-- Python truthiness of the device_data variable: None and the empty
string are falsy, every other string is truthy. -/
def py_truthy : Option String → Bool
  | none => false
  | some s => s != ""

/-- The filesystem: filename to content. -/
def FileState : Type := String → Option String

/-- save_file: opens save_path/device_name.txt with mode w+ (truncating)
and writes device_data character by character, i.e. overwrites the file
with exactly device_data. -/
def save_file (fs : FileState) (save_path device_name device_data : String) :
    FileState :=
  fun k =>
    if k = save_path ++ "/" ++ device_name ++ ".txt" then some device_data
    else fs k

/-- The adapter step of one loop iteration, after validation: the value of
the device_data variable when the iteration reaches the save/append code,
or none when an uncaught exception aborts the run.  The inner Option is
the Python value of device_data (None or a string).  When comm_type is the
empty string the match statement falls through and device_data keeps its
initial empty-string value. -/
def process_row (env : Env) (row : Row) : Option (Option String) :=
  if comm_type row.device_type = "netmiko" then
    some (netmiko_read env (build_netmiko_device env.getenv row)
      netmiko_device_commands)
  else if comm_type row.device_type = "api" then
    match api_url env.getenv row with
    | none => none
    | some url =>
      match env.http_get url with
      | none => none
      | some body => some (some body)
  else
    some (some "")

/-- Result of a run: finished reaches the report-rendering code with the
status list; crashed is an uncaught exception escaping the loop, killing
the process before any report exists.  Both carry the status list and the
files accumulated so far. -/
inductive RunResult where
  | finished (status : List (String × String)) (files : FileState)
  | crashed (status : List (String × String)) (files : FileState)

/-- The status list of a result. -/
def RunResult.statusOf : RunResult → List (String × String)
  | .finished s _ => s
  | .crashed s _ => s

/-- The files of a result. -/
def RunResult.filesOf : RunResult → FileState
  | .finished _ fs => fs
  | .crashed _ fs => fs

/-- Whether the run ended in an uncaught exception. -/
def RunResult.isCrash : RunResult → Bool
  | .finished _ _ => false
  | .crashed _ _ => true

/-- The CSV loop of main.  Validation failure executes break, leaving the
loop normally with the status accumulated so far; row_status starts as
NOT OK and becomes OK exactly when device_data is truthy, in which case
save_file runs first; the row status is appended at the end of every
completed iteration. -/
def run_loop (env : Env) (today_path : String) :
    List Row → List (String × String) → FileState → RunResult
  | [], status, fs => RunResult.finished status fs
  | row :: rest, status, fs =>
    if row.device_type ∉ netmiko_device_types ∧
        row.device_type ∉ api_device_types then
      RunResult.finished status fs
    else
      match process_row env row with
      | none => RunResult.crashed status fs
      | some device_data =>
        if py_truthy device_data then
          run_loop env today_path rest (status ++ [(row.name, "OK")])
            (save_file fs today_path row.name (device_data.getD ""))
        else
          run_loop env today_path rest (status ++ [(row.name, "NOT OK")]) fs

/-- A whole run over the CSV rows, starting from an empty status list. -/
def run (env : Env) (today_path : String) (rows : List Row)
    (fs : FileState) : RunResult :=
  run_loop env today_path rows [] fs

/-- The number of leading records that pass device_type validation: the
records the loop classifies before the break. -/
def classified_count : List Row → Nat
  | [] => 0
  | row :: rest =>
    if row.device_type ∉ netmiko_device_types ∧
        row.device_type ∉ api_device_types then 0
    else classified_count rest + 1

/-- The empty filesystem. -/
def fs0 : FileState := fun _ => none

/-- The record of concrete scenario B. -/
def row_fw1 : Row := ⟨"fw1", "10.0.0.2", "fortinet", "FORTI_TOKEN"⟩

/-- The record of concrete scenario A. -/
def row_sw1 : Row := ⟨"sw1", "10.0.0.1", "mikrotik_routeros", "MAIN_USER"⟩

/-- The record of concrete scenario C: an unknown device kind. -/
def row_bad : Row := ⟨"x1", "10.0.0.3", "unknown_vendor", "MAIN_USER"⟩

/-- A world where the fortinet token resolves but every GET raises a
network-level exception (connection refused). -/
def env_refused : Env :=
  { getenv := fun k => if k = "FORTI_TOKEN" then some "tok" else none
    netmiko_session := fun _ _ => none
    http_get := fun _ => none }

/-- A world where the fortinet token resolves and every GET returns the
body cfgbody. -/
def env_api_ok : Env :=
  { getenv := fun k => if k = "FORTI_TOKEN" then some "tok" else none
    netmiko_session := fun _ _ => none
    http_get := fun _ => some "cfgbody" }

/-- A world with main credentials where every interactive session raises. -/
def env_ssh_down : Env :=
  { getenv := fun k =>
      if k = "MAIN_USER" then some "admin"
      else if k = "MAIN_PASS" then some "pw" else none
    netmiko_session := fun _ _ => none
    http_get := fun _ => none }

/-- A world with main credentials where every interactive session captures
the output cfg. -/
def env_ssh_ok : Env :=
  { getenv := fun k =>
      if k = "MAIN_USER" then some "admin"
      else if k = "MAIN_PASS" then some "pw" else none
    netmiko_session := fun _ _ => some "cfg"
    http_get := fun _ => none }

/-- A world with an empty secret configuration. -/
def env_no_token : Env :=
  { getenv := fun _ => none
    netmiko_session := fun _ _ => none
    http_get := fun _ => none }

/- ------------------------------------------------------------------ -/
/- Helper lemmas                                                      -/
/- ------------------------------------------------------------------ -/

theorem comm_type_eq_netmiko (k : String) (h : comm_type k = "netmiko") :
    k ∈ netmiko_device_types ∧ k ∉ api_device_types := by
  unfold comm_type at h
  split at h
  · assumption
  · split at h <;> simp_all

theorem comm_type_eq_api (k : String) (h : comm_type k = "api") :
    k ∈ api_device_types ∧ k ∉ netmiko_device_types := by
  unfold comm_type at h
  split at h
  · simp_all
  · split at h
    · assumption
    · simp_all

theorem valid_of_comm_netmiko {k : String} (h : comm_type k = "netmiko") :
    ¬(k ∉ netmiko_device_types ∧ k ∉ api_device_types) := by
  obtain ⟨h1, _⟩ := comm_type_eq_netmiko k h
  exact fun hc => hc.1 h1

theorem valid_of_comm_api {k : String} (h : comm_type k = "api") :
    ¬(k ∉ netmiko_device_types ∧ k ∉ api_device_types) := by
  obtain ⟨h1, _⟩ := comm_type_eq_api k h
  exact fun hc => hc.2 h1

theorem run_loop_cons_break (env : Env) (p : String) (row : Row)
    (rest : List Row) (status : List (String × String)) (fs : FileState)
    (h : row.device_type ∉ netmiko_device_types ∧
      row.device_type ∉ api_device_types) :
    run_loop env p (row :: rest) status fs = RunResult.finished status fs := by
  simp only [run_loop]
  rw [if_pos h]

theorem run_loop_cons_crash (env : Env) (p : String) (row : Row)
    (rest : List Row) (status : List (String × String)) (fs : FileState)
    (hval : ¬(row.device_type ∉ netmiko_device_types ∧
      row.device_type ∉ api_device_types))
    (h : process_row env row = none) :
    run_loop env p (row :: rest) status fs = RunResult.crashed status fs := by
  simp only [run_loop]
  rw [if_neg hval, h]

theorem run_loop_cons_data (env : Env) (p : String) (row : Row)
    (rest : List Row) (status : List (String × String)) (fs : FileState)
    (d : Option String)
    (hval : ¬(row.device_type ∉ netmiko_device_types ∧
      row.device_type ∉ api_device_types))
    (h : process_row env row = some d) :
    run_loop env p (row :: rest) status fs =
      if py_truthy d then
        run_loop env p rest (status ++ [(row.name, "OK")])
          (save_file fs p row.name (d.getD ""))
      else
        run_loop env p rest (status ++ [(row.name, "NOT OK")]) fs := by
  simp only [run_loop]
  rw [if_neg hval, h]

theorem run_loop_finished_length (env : Env) (p : String) :
    ∀ (rows : List Row) (status : List (String × String)) (fs : FileState)
      (s' : List (String × String)) (fs' : FileState),
      run_loop env p rows status fs = RunResult.finished s' fs' →
      s'.length = status.length + classified_count rows := by
  intro rows
  induction rows with
  | nil =>
    intro status fs s' fs' h
    simp only [run_loop] at h
    injection h with h1 _
    subst h1
    simp [classified_count]
  | cons row rest ih =>
    intro status fs s' fs' h
    by_cases hval : row.device_type ∉ netmiko_device_types ∧
        row.device_type ∉ api_device_types
    · rw [run_loop_cons_break env p row rest status fs hval] at h
      injection h with h1 _
      subst h1
      simp [classified_count, hval]
    · cases hd : process_row env row with
      | none =>
        rw [run_loop_cons_crash env p row rest status fs hval hd] at h
        exact RunResult.noConfusion h
      | some d =>
        rw [run_loop_cons_data env p row rest status fs d hval hd] at h
        simp only [classified_count]
        rw [if_neg hval]
        by_cases ht : py_truthy d
        · rw [if_pos ht] at h
          have hlen := ih _ _ _ _ h
          simp only [List.length_append, List.length_singleton] at hlen
          omega
        · rw [if_neg ht] at h
          have hlen := ih _ _ _ _ h
          simp only [List.length_append, List.length_singleton] at hlen
          omega

theorem run_loop_reaches_break (env : Env) (p : String) :
    ∀ (rows1 : List Row) (row : Row) (rows2 : List Row)
      (status : List (String × String)) (fs : FileState),
      (∀ r ∈ rows1, ¬(r.device_type ∉ netmiko_device_types ∧
        r.device_type ∉ api_device_types)) →
      (∀ r ∈ rows1, process_row env r ≠ none) →
      (row.device_type ∉ netmiko_device_types ∧
        row.device_type ∉ api_device_types) →
      ∃ out fs', run_loop env p (rows1 ++ row :: rows2) status fs =
          RunResult.finished (status ++ out) fs' ∧
        out.map Prod.fst = rows1.map Row.name := by
  intro rows1
  induction rows1 with
  | nil =>
    intro row rows2 status fs _ _ hbad
    refine ⟨[], fs, ?_, rfl⟩
    simp only [List.nil_append, List.append_nil]
    exact run_loop_cons_break env p row rows2 status fs hbad
  | cons r rs ih =>
    intro row rows2 status fs hval hcrash hbad
    have hv := hval r (by simp)
    have hc := hcrash r (by simp)
    cases hd : process_row env r with
    | none => exact absurd hd hc
    | some d =>
      by_cases ht : py_truthy d
      · obtain ⟨out, fs', heq, hmap⟩ :=
          ih row rows2 (status ++ [(r.name, "OK")])
            (save_file fs p r.name (d.getD ""))
            (fun x hx => hval x (by simp [hx]))
            (fun x hx => hcrash x (by simp [hx])) hbad
        refine ⟨(r.name, "OK") :: out, fs', ?_, by simp [hmap]⟩
        rw [List.cons_append,
          run_loop_cons_data env p r (rs ++ row :: rows2) status fs d hv hd,
          if_pos ht, heq, List.append_assoc, List.singleton_append]
      · obtain ⟨out, fs', heq, hmap⟩ :=
          ih row rows2 (status ++ [(r.name, "NOT OK")]) fs
            (fun x hx => hval x (by simp [hx]))
            (fun x hx => hcrash x (by simp [hx])) hbad
        refine ⟨(r.name, "NOT OK") :: out, fs', ?_, by simp [hmap]⟩
        rw [List.cons_append,
          run_loop_cons_data env p r (rs ++ row :: rows2) status fs d hv hd,
          if_neg ht, heq, List.append_assoc, List.singleton_append]

theorem netmiko_read_eq (env : Env) (dev : NetmikoDevice) (command : String)
    (h : netmiko_device_commands.lookup dev.device_type = some command) :
    netmiko_read env dev netmiko_device_commands =
      (env.netmiko_session dev (netmiko_call dev.device_type command)).map
        (fun output => netmiko_header dev.host ++ output) := by
  unfold netmiko_read
  rw [h]
  show (match env.netmiko_session dev (netmiko_call dev.device_type command) with
    | none => none
    | some output => some (netmiko_header dev.host ++ output)) =
    (env.netmiko_session dev (netmiko_call dev.device_type command)).map
      (fun output => netmiko_header dev.host ++ output)
  cases env.netmiko_session dev (netmiko_call dev.device_type command) <;> rfl

/- ------------------------------------------------------------------ -/
/- Claim theorems                                                     -/
/- ------------------------------------------------------------------ -/

/-- C1: evaluation of the code at the failing input of concrete scenario B:
a fortinet record whose token resolves but whose GET raises a network-level
exception (connection refused).  The source has no try/except around the
GET, so the exception is not caught: the run crashes with no outcome for
the device, the following record is never processed and no report is
produced — contrary to the claimed logged NOT_OK outcome and batch
continuation. -/
theorem c1_api_network_failure_crash :
    run env_refused "bck" [row_fw1, row_sw1] fs0 =
      RunResult.crashed [] fs0 := rfl

/-- C5: for every interactive-shell record, a failure anywhere inside the
adapter session (connection, authentication, protocol) is caught inside
netmiko_read, which returns the Python value None; the loop then records a
NOT OK outcome for the device, writes no file, and continues with the
remaining records — the failure never aborts the batch. -/
theorem c5_shell_failure_contained (env : Env) (p : String) (row : Row)
    (rest : List Row) (status : List (String × String)) (fs : FileState)
    (hk : comm_type row.device_type = "netmiko")
    (hfail : netmiko_read env (build_netmiko_device env.getenv row)
      netmiko_device_commands = none) :
    run_loop env p (row :: rest) status fs =
      run_loop env p rest (status ++ [(row.name, "NOT OK")]) fs := by
  have hval := valid_of_comm_netmiko hk
  have hd : process_row env row = some none := by
    unfold process_row
    rw [if_pos hk, hfail]
  rw [run_loop_cons_data env p row rest status fs none hval hd]
  simp [py_truthy]

/-- Witness for C5 at a concrete input: a mikrotik record whose session
raises is recorded as NOT OK and the loop proceeds. -/
theorem c5_shell_failure_contained_witness :
    run_loop env_ssh_down "p" [row_sw1] [] fs0 =
      run_loop env_ssh_down "p" [] ([] ++ [(row_sw1.name, "NOT OK")]) fs0 :=
  c5_shell_failure_contained env_ssh_down "p" row_sw1 [] [] fs0 rfl rfl

/-- C9: writing a backup file for the same directory and device name twice
leaves the filesystem exactly as a single write of the second content:
save_file opens the file with mode w+, which truncates, so a re-run on the
same day overwrites instead of duplicating or appending. -/
theorem c9_overwrite (fs : FileState) (p device_name d1 d2 : String) :
    save_file (save_file fs p device_name d1) p device_name d2 =
      save_file fs p device_name d2 := by
  funext k
  unfold save_file
  by_cases h : k = p ++ "/" ++ device_name ++ ".txt"
  · rw [if_pos h, if_pos h]
  · rw [if_neg h, if_neg h, if_neg h]

/-- C10: for an HTTP-API record whose credential reference has no entry in
the loaded configuration, os.getenv returns None, the URL concatenation
raises an uncaught TypeError and the run aborts: the result is crashed with
the status list unchanged — no outcome for that device or any later one. -/
theorem c10_missing_token_aborts (env : Env) (p : String) (row : Row)
    (rest : List Row) (status : List (String × String)) (fs : FileState)
    (hk : comm_type row.device_type = "api")
    (ht : env.getenv row.cred_ref = none) :
    run_loop env p (row :: rest) status fs = RunResult.crashed status fs := by
  have hval := valid_of_comm_api hk
  have hurl : api_url env.getenv row = none := by
    unfold api_url
    rw [ht]
    cases api_strings.lookup row.device_type <;> rfl
  have hd : process_row env row = none := by
    unfold process_row
    rw [if_neg (by simp [hk]), if_pos hk, hurl]
  exact run_loop_cons_crash env p row rest status fs hval hd

/-- Witness for C10 at a concrete input: a fortinet record with an empty
secret configuration aborts the run with no outcome. -/
theorem c10_missing_token_aborts_witness :
    run_loop env_no_token "p" [row_fw1] [] fs0 =
      RunResult.crashed [] fs0 :=
  c10_missing_token_aborts env_no_token "p" row_fw1 [] [] fs0 rfl rfl

/-- C2: (1) in every run that terminates normally, the final status list
has exactly one entry per record that passed device_type validation before
the break — never more, never fewer; (2) when a record with an unknown
device_type follows a prefix of classified, non-crashing records, the run
stops at that record and the report holds exactly the outcomes of that
prefix, in input order, with no outcome for the offending record or any
later record. -/
theorem c2_outcome_count :
    (∀ (env : Env) (p : String) (rows : List Row) (fs : FileState)
      (s' : List (String × String)) (fs' : FileState),
      run env p rows fs = RunResult.finished s' fs' →
      s'.length = classified_count rows) ∧
    (∀ (env : Env) (p : String) (rows1 : List Row) (row : Row)
      (rows2 : List Row) (fs : FileState),
      (∀ r ∈ rows1, ¬(r.device_type ∉ netmiko_device_types ∧
        r.device_type ∉ api_device_types)) →
      (∀ r ∈ rows1, process_row env r ≠ none) →
      (row.device_type ∉ netmiko_device_types ∧
        row.device_type ∉ api_device_types) →
      ∃ out fs', run env p (rows1 ++ row :: rows2) fs =
          RunResult.finished out fs' ∧
        out.map Prod.fst = rows1.map Row.name ∧
        out.length = rows1.length) := by
  constructor
  · intro env p rows fs s' fs' h
    have := run_loop_finished_length env p rows [] fs s' fs' h
    simpa using this
  · intro env p rows1 row rows2 fs hval hcrash hbad
    obtain ⟨out, fs', heq, hmap⟩ :=
      run_loop_reaches_break env p rows1 row rows2 [] fs hval hcrash hbad
    refine ⟨out, fs', by simpa using heq, hmap, ?_⟩
    have := congrArg List.length hmap
    simpa using this

/-- Witness for C2 at a concrete input: one classified mikrotik record
whose session fails, followed by an unknown-vendor record; the run finishes
with exactly one NOT OK outcome. -/
theorem c2_outcome_count_witness :
    (([(row_sw1.name, "NOT OK")] : List (String × String)).length =
      classified_count [row_sw1, row_bad]) ∧
    ∃ out fs', run env_ssh_down "p" ([row_sw1] ++ row_bad :: []) fs0 =
        RunResult.finished out fs' ∧
      out.map Prod.fst = [row_sw1].map Row.name ∧
      out.length = [row_sw1].length :=
  ⟨c2_outcome_count.1 env_ssh_down "p" [row_sw1, row_bad] fs0
      [(row_sw1.name, "NOT OK")] fs0 rfl,
   c2_outcome_count.2 env_ssh_down "p" [row_sw1] row_bad [] fs0
      (by decide) (by decide) (by decide)⟩

/-- C3: for a successfully classified record whose adapter step yields the
device_data value d without crashing: when d is truthy (non-empty content)
the loop writes the file named after the device and records outcome OK;
when d is falsy (Python None from a caught shell failure, or the empty
string) it writes nothing, the filesystem is untouched and the outcome is
NOT OK. -/
theorem c3_persist_outcome (env : Env) (p : String) (row : Row)
    (rest : List Row) (status : List (String × String)) (fs : FileState)
    (d : Option String)
    (hval : ¬(row.device_type ∉ netmiko_device_types ∧
      row.device_type ∉ api_device_types))
    (hfetch : process_row env row = some d) :
    (py_truthy d = true →
      run_loop env p (row :: rest) status fs =
        run_loop env p rest (status ++ [(row.name, "OK")])
          (save_file fs p row.name (d.getD "")) ∧
      save_file fs p row.name (d.getD "") (p ++ "/" ++ row.name ++ ".txt") =
        some (d.getD "")) ∧
    (py_truthy d = false →
      run_loop env p (row :: rest) status fs =
        run_loop env p rest (status ++ [(row.name, "NOT OK")]) fs) := by
  constructor
  · intro ht
    refine ⟨?_, by simp [save_file]⟩
    rw [run_loop_cons_data env p row rest status fs d hval hfetch, if_pos ht]
  · intro ht
    rw [run_loop_cons_data env p row rest status fs d hval hfetch,
      if_neg (by simp [ht])]

/-- Witness for C3 at a concrete input: a fortinet record whose GET returns
the non-empty body cfgbody gets its file written and outcome OK. -/
theorem c3_persist_outcome_witness :
    run_loop env_api_ok "bck" [row_fw1] [] fs0 =
      run_loop env_api_ok "bck" [] ([] ++ [(row_fw1.name, "OK")])
        (save_file fs0 "bck" row_fw1.name ((some "cfgbody").getD "")) ∧
    save_file fs0 "bck" row_fw1.name ((some "cfgbody").getD "")
        ("bck" ++ "/" ++ row_fw1.name ++ ".txt") =
      some ((some "cfgbody").getD "") :=
  (c3_persist_outcome env_api_ok "bck" row_fw1 [] [] fs0 (some "cfgbody")
    (by decide) rfl).1 rfl

/-- C4 counterexample: an HTTP-API device (fortinet) whose fetch returns
the non-empty body cfgbody gets an output file containing exactly cfgbody —
not the header-prefixed text the claim requires of both adapters.  Only
netmiko_read prepends the header; the API branch of main stores
response.text verbatim. -/
theorem c4_counterexample :
    (run env_api_ok "bck" [row_fw1] fs0).filesOf "bck/fw1.txt" =
      some "cfgbody" ∧
    (some "cfgbody" : Option String) ≠
      some (netmiko_header "10.0.0.2" ++ "cfgbody") := by
  constructor
  · rfl
  · decide

/-- C4 (amended): for every interactive-shell device whose session
succeeds, the adapter result is the captured output prefixed by the header
block identifying the device host; for every HTTP-API device the adapter
result is the response body verbatim, with no header; and save_file stores
exactly the adapter result as the content of the file named after the
device. -/
theorem c4_header_content (env : Env) :
    (∀ (dev : NetmikoDevice) (command output : String),
      netmiko_device_commands.lookup dev.device_type = some command →
      env.netmiko_session dev (netmiko_call dev.device_type command) =
        some output →
      netmiko_read env dev netmiko_device_commands =
        some (netmiko_header dev.host ++ output)) ∧
    (∀ (row : Row) (url body : String),
      comm_type row.device_type = "api" →
      api_url env.getenv row = some url →
      env.http_get url = some body →
      process_row env row = some (some body)) ∧
    (∀ (fs : FileState) (p n d : String),
      save_file fs p n d (p ++ "/" ++ n ++ ".txt") = some d) := by
  refine ⟨?_, ?_, ?_⟩
  · intro dev command output hcmd hsess
    rw [netmiko_read_eq env dev command hcmd, hsess]
    rfl
  · intro row url body hct hurl hget
    unfold process_row
    rw [if_neg (by simp [hct]), if_pos hct, hurl]
    show (match env.http_get url with
      | none => none
      | some body => some (some body)) = some (some body)
    rw [hget]
  · intro fs p n d
    simp [save_file]

/-- Witness for the amended C4 at a concrete input: a mikrotik session
returning cfg yields the header-prefixed file content. -/
theorem c4_header_content_witness :
    netmiko_read env_ssh_ok (build_netmiko_device env_ssh_ok.getenv row_sw1)
        netmiko_device_commands =
      some (netmiko_header
        (build_netmiko_device env_ssh_ok.getenv row_sw1).host ++ "cfg") :=
  (c4_header_content env_ssh_ok).1
    (build_netmiko_device env_ssh_ok.getenv row_sw1) "export" "cfg" rfl rfl

/-- C6: classification is total and exclusive — (1) every device_type in
the static tables is classified into exactly one channel group; (2) a
device_type absent from both tables makes the loop break, a validation
error ending the batch; (3) the static configuration contains no
device_type present in both tables, so the ambiguous configuration error
cannot arise at run time. -/
theorem c6_classification :
    (∀ k : String, (k ∈ netmiko_device_types ∨ k ∈ api_device_types) →
      ((comm_type k = "netmiko" ∧ k ∈ netmiko_device_types ∧
          k ∉ api_device_types) ∨
        (comm_type k = "api" ∧ k ∈ api_device_types ∧
          k ∉ netmiko_device_types))) ∧
    (∀ (k : String), k ∉ netmiko_device_types → k ∉ api_device_types →
      ∀ (env : Env) (p : String) (row : Row) (rest : List Row)
        (status : List (String × String)) (fs : FileState),
        row.device_type = k →
        run_loop env p (row :: rest) status fs =
          RunResult.finished status fs) ∧
    (∀ k : String, ¬(k ∈ netmiko_device_types ∧ k ∈ api_device_types)) := by
  refine ⟨?_, ?_, ?_⟩
  · intro k hk
    rcases hk with h | h
    · simp only [netmiko_device_types, List.mem_cons,
        List.mem_singleton, List.not_mem_nil, or_false] at h
      rcases h with h | h | h <;> subst h <;> left <;> refine ⟨rfl, ?_, ?_⟩ <;>
        decide
    · simp only [api_device_types, List.mem_singleton] at h
      subst h
      right
      refine ⟨rfl, ?_, ?_⟩ <;> decide
  · intro k h1 h2 env p row rest status fs hrow
    apply run_loop_cons_break
    rw [hrow]
    exact ⟨h1, h2⟩
  · intro k hk
    obtain ⟨h1, h2⟩ := hk
    simp only [api_device_types, List.mem_singleton] at h2
    subst h2
    exact absurd h1 (by decide)

/-- Witness for C6 at concrete inputs: the mikrotik kind classifies into
the interactive-shell group only; a record with the unknown vendor kind
ends the run with the status accumulated so far; fortinet is not in both
tables. -/
theorem c6_classification_witness :
    ((comm_type "mikrotik_routeros" = "netmiko" ∧
        "mikrotik_routeros" ∈ netmiko_device_types ∧
        "mikrotik_routeros" ∉ api_device_types) ∨
      (comm_type "mikrotik_routeros" = "api" ∧
        "mikrotik_routeros" ∈ api_device_types ∧
        "mikrotik_routeros" ∉ netmiko_device_types)) ∧
    run_loop env_ssh_down "p" [row_bad] [] fs0 =
      RunResult.finished [] fs0 ∧
    ¬("fortinet" ∈ netmiko_device_types ∧ "fortinet" ∈ api_device_types) :=
  ⟨c6_classification.1 "mikrotik_routeros" (Or.inl (by decide)),
   c6_classification.2.1 "unknown_vendor" (by decide) (by decide)
     env_ssh_down "p" row_bad [] [] fs0 rfl,
   c6_classification.2.2 "fortinet"⟩

/-- C7: credential resolution for the interactive-shell branch recognizes
only the reference MAIN_USER, yielding the configured main username and
password with the password also installed as the privileged-mode secret;
every other reference resolves, without any error, to empty username and
password (the user and pw variables keep their initial empty-string
values). -/
theorem c7_cred_resolution (getenv : String → Option String) (u pw : String)
    (hu : getenv "MAIN_USER" = some u) (hp : getenv "MAIN_PASS" = some pw) :
    (∀ row : Row, row.cred_ref = "MAIN_USER" →
      (build_netmiko_device getenv row).username = some u ∧
      (build_netmiko_device getenv row).password = some pw ∧
      (build_netmiko_device getenv row).secret =
        (build_netmiko_device getenv row).password) ∧
    (∀ row : Row, row.cred_ref ≠ "MAIN_USER" →
      (build_netmiko_device getenv row).username = some "" ∧
      (build_netmiko_device getenv row).password = some "" ∧
      (build_netmiko_device getenv row).secret =
        (build_netmiko_device getenv row).password) := by
  constructor
  · intro row h
    simp [build_netmiko_device, resolve_netmiko_cred, h, hu, hp]
  · intro row h
    simp [build_netmiko_device, resolve_netmiko_cred, h]

/-- Witness for C7 at a concrete input: with main credentials configured,
the MAIN_USER reference resolves to them and the secret equals the
password. -/
theorem c7_cred_resolution_witness :
    (build_netmiko_device env_ssh_down.getenv row_sw1).username =
      some "admin" ∧
    (build_netmiko_device env_ssh_down.getenv row_sw1).password =
      some "pw" ∧
    (build_netmiko_device env_ssh_down.getenv row_sw1).secret =
      (build_netmiko_device env_ssh_down.getenv row_sw1).password :=
  (c7_cred_resolution env_ssh_down.getenv "admin" "pw" rfl rfl).1 row_sw1 rfl

/-- C8: the read strategy is selected per device kind, not uniformly: the
mikrotik_routeros kind is read by send_command_timing (timed drain, with
last_read 60) running its table command export, while the other
interactive-shell kinds (ubiquiti_edgeswitch, cisco_s300) are read by
send_command (prompt-synchronized) running their table command show run. -/
theorem c8_read_strategy (env : Env) :
    (∀ dev : NetmikoDevice, dev.device_type = "mikrotik_routeros" →
      netmiko_read env dev netmiko_device_commands =
        (env.netmiko_session dev (NetmikoCall.timing "export" 60)).map
          (fun output => netmiko_header dev.host ++ output)) ∧
    (∀ dev : NetmikoDevice, dev.device_type = "ubiquiti_edgeswitch" →
      netmiko_read env dev netmiko_device_commands =
        (env.netmiko_session dev (NetmikoCall.prompt "show run")).map
          (fun output => netmiko_header dev.host ++ output)) ∧
    (∀ dev : NetmikoDevice, dev.device_type = "cisco_s300" →
      netmiko_read env dev netmiko_device_commands =
        (env.netmiko_session dev (NetmikoCall.prompt "show run")).map
          (fun output => netmiko_header dev.host ++ output)) := by
  refine ⟨?_, ?_, ?_⟩
  · intro dev h
    rw [netmiko_read_eq env dev "export" (by rw [h]; decide), h]
    rfl
  · intro dev h
    rw [netmiko_read_eq env dev "show run" (by rw [h]; decide), h]
    rfl
  · intro dev h
    rw [netmiko_read_eq env dev "show run" (by rw [h]; decide), h]
    rfl

/-- Witness for C8 at a concrete input: the mikrotik device is read through
the timed-drain primitive with the export command. -/
theorem c8_read_strategy_witness :
    netmiko_read env_ssh_down
        (build_netmiko_device env_ssh_down.getenv row_sw1)
        netmiko_device_commands =
      (env_ssh_down.netmiko_session
          (build_netmiko_device env_ssh_down.getenv row_sw1)
          (NetmikoCall.timing "export" 60)).map
        (fun output =>
          netmiko_header
            (build_netmiko_device env_ssh_down.getenv row_sw1).host ++
            output) :=
  (c8_read_strategy env_ssh_down).1
    (build_netmiko_device env_ssh_down.getenv row_sw1) rfl

end Netbackup
